import Mathlib

/-!
Verification of the roundrock-home-stack diagnostic scripts.

This file shallowly embeds the three scripts of the repository:
  * `tools/rpi-diagnostics.py`  — the pure-Python diagnostics server
    (hardware detection, status getters, HTML report, HTTP handler);
  * `pihole-config-report.py`   — the shell variant of the same diagnostics
    (hardware detection and report fragments relevant to the claims);
  * `svc/monitoring/ai-hat-monitor.py` — the Prometheus metrics exporter.

Conventions of the embedding:
  * every shelled-out command is an input: a getter that in Python calls
    `run_command` becomes a pure function of a record of command outputs
    (`run_command` itself totalises all failures to the empty string);
  * Python exceptions are modelled with `Except String`; a raised
    IndexError / ValueError / ZeroDivisionError becomes `.error`;
  * numeric values parsed from command text are exact rationals built with
    `mkRat`; rendering of Python float formatting (`:.1f` etc.) is done on
    exact rationals with half-up rounding — Python formats the nearest
    binary double half-to-even, a difference no claim depends on;
  * string operations are re-implemented structurally over `List Char`
    (ASCII approximations of `str.lower` / `str.isdigit`, which in the
    probed command text is the only alphabet that occurs);
  * static markup (CSS, JS, decorative glyphs) in the HTML template is
    abbreviated; every interpolation site and every conditional of the
    source template is preserved.
-/

/-! ### String primitives (Python / bash string operations) -/

/-- Characters of a string (Lean strings wrap `List Char`). -/
def chars (s : String) : List Char := s.data

/-- String from characters. -/
def ofChars (cs : List Char) : String := String.mk cs

/-- Split on a single-character separator, Python `str.split(sep)` semantics:
`"a=b".split("=") = ["a","b"]`, `"".split("=") = [""]`. -/
def splitChar (sep : Char) : List Char → List (List Char)
  | [] => [[]]
  | c :: rest =>
    if c = sep then [] :: splitChar sep rest
    else
      match splitChar sep rest with
      | [] => [[c]]
      | g :: gs => (c :: g) :: gs

/-- Split on a character predicate (used for Python `str.split()` with no
argument, which splits on whitespace runs). -/
def splitPredAux (p : Char → Bool) : List Char → List (List Char)
  | [] => [[]]
  | c :: rest =>
    if p c then [] :: splitPredAux p rest
    else
      match splitPredAux p rest with
      | [] => [[c]]
      | g :: gs => (c :: g) :: gs

/-- Python `str.split()` (no argument): split on whitespace, drop empties. -/
def pySplitWs (s : String) : List String :=
  ((splitPredAux Char.isWhitespace (chars s)).filter (fun g => g ≠ [])).map ofChars

/-- The characters after the first occurrence of `pat`, or `none` when `pat`
does not occur. -/
def findAfter : List Char → List Char → Option (List Char)
  | [], pat => if pat = [] then some [] else none
  | h :: t, pat =>
    if pat.isPrefixOf (h :: t) then some ((h :: t).drop pat.length)
    else findAfter t pat

/-- Substring containment (Python `pat in s`, `grep -q`). -/
def strContains (s pat : String) : Bool := (findAfter (chars s) (chars pat)).isSome

/-- The characters before the first occurrence of `pat` (the whole list when
`pat` does not occur): Python `s.split(pat)[0]`. -/
def takeUntilSeq (pat : List Char) : List Char → List Char
  | [] => []
  | c :: rest =>
    if pat ≠ [] && pat.isPrefixOf (c :: rest) then []
    else c :: takeUntilSeq pat rest

/-- Python `s.split(pat)[1]` for a `pat` known to occur: the segment between
the first and the second occurrence. -/
def segmentAfter (s pat : String) : Option String :=
  (findAfter (chars s) (chars pat)).map (fun rest => ofChars (takeUntilSeq (chars pat) rest))

/-- Python `str.strip()` (ASCII/Unicode whitespace as `Char.isWhitespace`). -/
def pyStrip (s : String) : String :=
  ofChars ((((chars s).dropWhile Char.isWhitespace).reverse.dropWhile Char.isWhitespace).reverse)

/-- Python `str.lower()` (ASCII range; the probed command text is ASCII). -/
def pyLower (s : String) : String := ofChars ((chars s).map Char.toLower)

/-- Join with newlines (rendering of multi-line command output). -/
def joinLines : List String → String
  | [] => ""
  | [x] => x
  | x :: xs => x ++ "\n" ++ joinLines xs

/-- Join with an arbitrary separator (Python `sep.join`). -/
def joinSep (sep : String) : List String → String
  | [] => ""
  | [x] => x
  | x :: xs => x ++ sep ++ joinSep sep xs

/-- Numeric value of a digit run. -/
def natOfDigits (ds : List Char) : Nat :=
  ds.foldl (fun a c => a * 10 + (c.toNat - 48)) 0

/-- Python `str.isdigit()` on a nonempty string (ASCII digits; Python also
accepts some Unicode digit classes that never occur in the probed text). -/
def pyIsDigitStr (s : String) : Bool :=
  chars s ≠ [] && (chars s).all Char.isDigit

/-- Python `int(str)`: optional surrounding whitespace, optional sign, a
nonempty digit run.  (Python 3 underscore digit separators are not
modelled.)  Returns `none` where Python raises ValueError. -/
def pyInt (s : String) : Option Int :=
  let t := chars (pyStrip s)
  match t with
  | '+' :: ds => if ds ≠ [] && ds.all Char.isDigit then some (natOfDigits ds) else none
  | '-' :: ds => if ds ≠ [] && ds.all Char.isDigit then some (-(natOfDigits ds : Int)) else none
  | ds => if ds ≠ [] && ds.all Char.isDigit then some (natOfDigits ds) else none

/-- Bash `[ s -gt n ]`: the test is true when `s` parses as an integer
greater than `n`, and false (an errored test) otherwise.  Bash accepts the
same optional-sign digit-run shape as `pyInt`. -/
def bashGtNum (s : String) (n : Int) : Bool :=
  match pyInt s with
  | some v => v > n
  | none => false

/-- Exact rational of `whole.frac` built with a single `mkRat`. -/
def ratOfDigits (whole frac : List Char) : ℚ :=
  mkRat (natOfDigits whole * 10 ^ frac.length + natOfDigits frac) (10 ^ frac.length)

/-- Left-pad a digit string with zeros to a given width. -/
def padZeros (w : Nat) (s : String) : String :=
  ofChars (List.replicate (w - (chars s).length) '0' ++ chars s)

/-- Rendering of Python `f"{a/b:.prec f}"` for integer `a`, `b` (every
format site in the source divides two integers).  Exact half-up rounding of
`a/b` to `prec` digits; all call sites pass a positive denominator. -/
def fmtDiv (prec : Nat) (a b : Int) : String :=
  let b := if b = 0 then 1 else b
  let scale : Int := (10 : Int) ^ prec
  let m : Int := (2 * a * scale + b).fdiv (2 * b)
  let sign := if m < 0 then "-" else ""
  let whole := m.natAbs / scale.natAbs
  let frac := m.natAbs % scale.natAbs
  if prec = 0 then sign ++ Nat.repr whole
  else sign ++ Nat.repr whole ++ "." ++ padZeros prec (Nat.repr frac)

/-! ### Temperature classification (report renderers)

`tools/rpi-diagnostics.py`, `generate_html_report`, cooling card
(lines 463-474), and `pihole-config-report.py`, cooling card
(lines 261-276) and system-status section (lines 307-314). -/

/-- The value-level classification of the pure-Python cooling card
(lines 469-472): start at "success", `> 70` gives "warning", `> 80` gives
"error" (two independent `if`s). -/
def pyClassifyVal (v : ℚ) : String :=
  let c := "success"
  let c := if v > 70 then "warning" else c
  if v > 80 then "error" else c

/-- Python `float` restricted to digit/dot text (the argument at the call
site has been filtered to digits and dots): one optional dot, at least one
digit somewhere. -/
def pyFloatParse (cs : List Char) : Option ℚ :=
  match splitChar '.' cs with
  | [i] =>
    if i ≠ [] && i.all Char.isDigit then some (mkRat (natOfDigits i) 1) else none
  | [i, f] =>
    if (i ≠ [] || f ≠ []) && i.all Char.isDigit && f.all Char.isDigit then
      some (ratOfDigits i f)
    else none
  | _ => none

/-- Line 468: `float(''.join(c for c in temp.split('¬∞')[0].split("'")[0]
if c.isdigit() or c == '.'))` — `none` where Python raises and the
surrounding `except` leaves the class at "success". -/
def pyTempValOf (temp : String) : Option ℚ :=
  let beforeDeg := takeUntilSeq (chars "¬∞") (chars temp)
  let beforeQuote := takeUntilSeq [Char.ofNat 39] beforeDeg
  pyFloatParse (beforeQuote.filter (fun c => c.isDigit || c = '.'))

/-- The pure-Python cooling card class of a temperature string
(lines 463-474 of `generate_html_report`). -/
def pyCoolingCardClass (temp : String) : String :=
  if temp ≠ "N/A" && (chars temp).any Char.isDigit then
    match pyTempValOf temp with
    | some v => pyClassifyVal v
    | none => "success"
  else "success"

/-- Bash parameter expansion `TEMP%.*`: strip the shortest suffix matching
`.*`, i.e. everything from the last dot on. -/
def stripFrac (s : String) : String :=
  let r := (chars s).reverse
  let afterDot := r.takeWhile (fun c => c ≠ '.')
  if afterDot.length = r.length then s
  else ofChars ((r.drop (afterDot.length + 1)).reverse)

/-- Shell renderer, cooling card (`pihole-config-report.py` lines 262-268):
`TEMP_CLASS="success"`, then `if [ "$TEMP" != "N/A" ] && [ "${TEMP%.*}" -gt 70 ]`
sets "warning", `elif ... -gt 80` sets "error".  The `elif` is only reached
when the first test fails. -/
def shCoolingCardClass (temp : String) : String :=
  if temp ≠ "N/A" && bashGtNum (stripFrac temp) 70 then "warning"
  else if temp ≠ "N/A" && bashGtNum (stripFrac temp) 80 then "error"
  else "success"

/-- Shell renderer, system-status section (lines 309-312):
`TEMP_CLASS=""`, then two independent `if`s, `-gt 70` → "warning",
`-gt 80` → "error". -/
def shStatusTempClass (tempNum : String) : String :=
  let c := ""
  let c := if bashGtNum (stripFrac tempNum) 70 then "warning" else c
  if bashGtNum (stripFrac tempNum) 80 then "error" else c

/-! ### Metrics exporter (`svc/monitoring/ai-hat-monitor.py`)

`SimpleAIHatMonitor`: `get_cpu_temperature` (lines 24-35), `detect_ai_hat`
(lines 37-59), `collect_metrics` (lines 61-76), `run` (lines 78-95).
A subprocess call that raises is an `Except.error`; a completed call is
`.ok` with its return code and stdout where the code reads them. -/

/-- Match of `(\d+\.?\d*)'C` at the start of `cs` (the text already behind a
`temp=` literal): greedy digits, optional dot, greedy digits, then `'C`.
No backtracking alternative can succeed, so greedy matching is exact. -/
def matchTempNum (cs : List Char) : Option ℚ :=
  let ds := cs.takeWhile Char.isDigit
  if ds = [] then none
  else
    match cs.drop ds.length with
    | '.' :: rest2 =>
      let fs := rest2.takeWhile Char.isDigit
      (match rest2.drop fs.length with
       | c1 :: c2 :: _ =>
         if c1 = Char.ofNat 39 && c2 = 'C' then some (ratOfDigits ds fs) else none
       | _ => none)
    | c1 :: c2 :: _ =>
      if c1 = Char.ofNat 39 && c2 = 'C' then some (mkRat (natOfDigits ds) 1) else none
    | _ => none

/-- `re.search(r"temp=(\d+\.?\d*)'C", out)`: the leftmost position where the
whole pattern matches. -/
def searchTemp : List Char → Option ℚ
  | [] => none
  | c :: rest =>
    if (chars "temp=").isPrefixOf (c :: rest) then
      match matchTempNum ((c :: rest).drop 5) with
      | some v => some v
      | none => searchTemp rest
    else searchTemp rest

/-- `get_cpu_temperature`: `none` when the subprocess raised, exited
non-zero, or the regex found no match; otherwise the parsed temperature. -/
def get_cpu_temperature (res : Except Unit (Int × String)) : Option ℚ :=
  match res with
  | .error _ => none
  | .ok (rc, out) => if rc = 0 then searchTemp (chars out) else none

/-- `detect_ai_hat`: keyword scan of `lsmod` stdout, then a scan of
`ls /dev` stdout for "apex"/"dri"; any exception inside the `try` is caught
and the function returns `False` (lines 55-59). -/
def detect_ai_hat (lsmodRes lsdevRes : Except Unit String) : Bool :=
  match lsmodRes with
  | .error _ => false
  | .ok lsmodOut =>
    if ["hailo", "coral", "tpu", "npu", "ai"].any
        (fun k => strContains (pyLower lsmodOut) k) then true
    else
      match lsdevRes with
      | .error _ => false
      | .ok lsdevOut => strContains lsdevOut "apex" || strContains lsdevOut "dri"

/-- The three Prometheus gauges; `none` is the absent state before the
first `set`. -/
structure Gauges where
  ai_hat_temp : Option ℚ
  cpu_temp : Option ℚ
  ai_hat_detected : Option ℚ

/-- `collect_metrics`: update `cpu_temp` and `ai_hat_temp` only when the
reading is truthy (`if cpu_temp:` — `None` and `0.0` are both falsy), then
always overwrite `ai_hat_detected` with the detection result as 1/0. -/
def collect_metrics (g : Gauges) (tempReading : Option ℚ)
    (lsmodRes lsdevRes : Except Unit String) : Gauges :=
  let g1 :=
    match tempReading with
    | some v => if v ≠ 0 then { g with cpu_temp := some v, ai_hat_temp := some v } else g
    | none => g
  let detected := detect_ai_hat lsmodRes lsdevRes
  { g1 with ai_hat_detected := some (if detected then 1 else 0) }

/-- What one iteration of the `run` loop observes: the body ran to the end
of its `sleep(30)`, an `Exception` escaped the poll step, or a
`KeyboardInterrupt` arrived. -/
inductive PollEvent
  | ok
  | exnError
  | interrupt
  deriving DecidableEq

/-- One iteration of `run` (lines 86-95): `try: collect_metrics(); sleep(30)`,
`except KeyboardInterrupt: break`, `except Exception: log; sleep(60)`.
`some n` is "continue after sleeping n seconds", `none` is "break". -/
def run_step : PollEvent → Option Nat
  | .ok => some 30
  | .interrupt => none
  | .exnError => some 60

/-- The sleep an iteration performs when the loop continues (30 after a
normal poll, 60 after an escaped exception; unused for interrupt). -/
def step_sleep : PollEvent → Nat
  | .ok => 30
  | .exnError => 60
  | .interrupt => 0

/-- The `while True` loop over a finite observation trace: the sleeps
performed, and whether the loop broke (it only breaks on interrupt). -/
def run_loop : List PollEvent → List Nat × Bool
  | [] => ([], false)
  | e :: rest =>
    match run_step e with
    | none => ([], true)
    | some s =>
      let r := run_loop rest
      (s :: r.1, r.2)

/-! ### Hardware detectors (AI accelerator and cooling)

Pure-Python: `RPiDiagnostics.detect_hardware`, lines 63-78.
Shell: `detect_pi_hardware`, lines 38-54. -/

/-- What the AI-accelerator probes observe on the host: the `lsusb` stdout,
the stdout of `ls /dev/i2c-* 2>/dev/null` (empty when no node exists), and
the combined stdout of the shell pipeline
`ls /dev/i2c-* | xargs -I _ i2cdetect -y _` (empty when `i2cdetect` is
absent or produced nothing). -/
structure AiProbe where
  lsusbOut : String
  i2cLsOut : String
  i2cScanOut : String

/-- Python lines 64-66: any of the keywords in the lowercased `lsusb`
output. -/
def pyUsbKeywordHit (p : AiProbe) : Bool :=
  ["coral", "neural", "tpu", "edge"].any (fun k => strContains (pyLower p.lsusbOut) k)

/-- Python lines 63-72: keyword scan of `lsusb`; only when that found
nothing, `ls /dev/i2c-*` — a nonempty listing sets the flag. -/
def detect_hardware_ai_hat (p : AiProbe) : Bool :=
  let fromUsb := pyUsbKeywordHit p
  if fromUsb then fromUsb
  else if p.i2cLsOut ≠ "" then true
  else fromUsb

/-- Shell line 39: `lsusb | grep -iq "coral\|neural\|tpu"` (no "edge"). -/
def shUsbKeywordHit (p : AiProbe) : Bool :=
  ["coral", "neural", "tpu"].any (fun k => strContains (pyLower p.lsusbOut) k)

/-- Two adjacent characters matching `[0-9a-f]` (the shell greps the scan
output for `"[0-9a-f][0-9a-f]"`, lower-case only: no `-i`). -/
def isLowerHex (c : Char) : Bool := c.isDigit || ('a' ≤ c && c ≤ 'f')

def hasLowerHexPair : List Char → Bool
  | a :: b :: t => (isLowerHex a && isLowerHex b) || hasLowerHexPair (b :: t)
  | _ => false

/-- Shell lines 39-44: `if lsusb | grep -iq ...; then true; elif
ls /dev/i2c-* | xargs i2cdetect | grep -q "[0-9a-f][0-9a-f]"; then true`. -/
def detect_pi_hardware_ai_hat (p : AiProbe) : Bool :=
  if shUsbKeywordHit p then true
  else if hasLowerHexPair (chars p.i2cScanOut) then true
  else false

/-- The claim's AI-accelerator predicate, following the spec's words: the
USB descriptor text matches a keyword list, OR an I2C device node exists
(the `ls /dev/i2c-*` listing is nonempty). -/
def specAiHatFlag (p : AiProbe) : Bool :=
  pyUsbKeywordHit p || p.i2cLsOut ≠ ""

/-- What the cooling probes observe on the host. -/
structure CoolProbe where
  /-- names of the entries under `/sys/class/thermal` that `find` visits -/
  thermalNames : List String
  /-- contents of the `/sys/class/thermal/cooling_device*/type` files -/
  coolingTypeContents : List String
  /-- whether the `fancontrol` service is active -/
  fancontrolActive : Bool
  /-- stdout of `pgrep -f "gpio.*fan"` (nonempty exactly when the pgrep
  exits 0, i.e. a matching process is running) -/
  pgrepOut : String

/-- Stdout of `find /sys/class/thermal -name *fan*`: the entries whose
name contains "fan". -/
def pyFindFanOut (p : CoolProbe) : String :=
  joinLines (p.thermalNames.filter (fun n => strContains n "fan"))

/-- Stdout of `systemctl is-active fancontrol` after `strip()`. -/
def pySystemctlOut (p : CoolProbe) : String :=
  if p.fancontrolActive then "active" else "inactive"

/-- Python lines 74-78:
`bool(cooling_check1 or cooling_check2 == "active" or cooling_check3)` —
the first check is the `find`-by-NAME output, not file contents. -/
def detect_hardware_cooling (p : CoolProbe) : Bool :=
  pyFindFanOut p ≠ "" || pySystemctlOut p = "active" || p.pgrepOut ≠ ""

/-- Shell lines 47-54: `[ -f /sys/class/thermal/cooling_device*/type ]` is
true only when the glob expands to exactly one (regular-file) match, and
only then `grep -q "fan"` on it; a separate `if` sets the flag when
`pgrep -f "gpio.*fan"` succeeds or `systemctl is-active --quiet fancontrol`
does. -/
def detect_pi_hardware_cooling (p : CoolProbe) : Bool :=
  let contentHit :=
    match p.coolingTypeContents with
    | [single] => strContains single "fan"
    | _ => false
  contentHit || p.pgrepOut ≠ "" || p.fancontrolActive

/-- The claim's cooling predicate, following the spec's words: a thermal
cooling-device type file's CONTENTS mention "fan", or the fan-control
service is active, or a GPIO fan-control process is running. -/
def specCoolingFlag (p : CoolProbe) : Bool :=
  p.coolingTypeContents.any (fun c => strContains c "fan")
    || p.fancontrolActive || p.pgrepOut ≠ ""

/-- Decidable equality for `Except` (absent from the library), used to
evaluate the embedded fallible getters on concrete inputs. -/
def exceptDecEq {ε α : Type} [DecidableEq ε] [DecidableEq α] :
    DecidableEq (Except ε α) := fun a b =>
  match a, b with
  | .error e, .error f =>
    decidable_of_iff (e = f) ⟨fun h => h ▸ rfl, fun h => by cases h; rfl⟩
  | .ok x, .ok y =>
    decidable_of_iff (x = y) ⟨fun h => h ▸ rfl, fun h => by cases h; rfl⟩
  | .error _, .ok _ => .isFalse (fun h => Except.noConfusion h)
  | .ok _, .error _ => .isFalse (fun h => Except.noConfusion h)

instance {ε α : Type} [DecidableEq ε] [DecidableEq α] : DecidableEq (Except ε α) :=
  exceptDecEq

/-! ### Report pipeline data model (`tools/rpi-diagnostics.py`)

Each getter of `RPiDiagnostics` becomes a pure function of `CmdOutputs`,
the record of the stdout of every command the report path runs
(`run_command` returns stripped stdout, or `""` on any failure, so every
field is simply a string, and function-typed fields cover the commands run
once per discovered bus/file). -/

/-- The hardware profile computed once at startup (`detect_hardware`). -/
structure HardwareInfo where
  model : String
  revision : String
  memory : String
  has_wifi : Bool
  has_ethernet : Bool
  has_ai_hat : Bool
  has_cooling : Bool

/-- Stdout of every command the report-generation path shells out to. -/
structure CmdOutputs where
  uptime_p : String := ""          -- uptime -p
  uptime : String := ""            -- uptime
  free : String := ""              -- free
  measure_temp : String := ""      -- vcgencmd measure_temp
  thermal_zone : String := ""      -- cat /sys/class/thermal/thermal_zone0/temp
  get_throttled : String := ""     -- vcgencmd get_throttled
  volts : String → String := fun _ => ""  -- vcgencmd measure_volts <rail>
  dmesg_power : String := ""       -- dmesg | grep -i under-voltage etc | tail -5
  eth_link : String := ""          -- ip link show eth0
  eth_ip : String := ""            -- ip addr show eth0 | grep inet | ...
  wifi_info : String := ""         -- iwconfig wlan0
  gateway : String := ""           -- ip route | grep default | awk ...
  ping_gateway : String := ""      -- ping gateway; echo $?
  ping_internet : String := ""     -- ping 8.8.8.8; echo $?
  dns_test : String := ""          -- nslookup google.com; echo $?
  ip_addr : String := ""           -- ip addr show
  ip_route : String := ""          -- ip route show
  net_dev : String := ""           -- cat /proc/net/dev | grep eth0/wlan0
  df_h : String := ""              -- df -h
  lsblk : String := ""             -- lsblk
  lsusb : String := ""             -- lsusb
  mounts : String := ""            -- mount | grep -v tmpfs...
  usb_neural : String := ""        -- lsusb | grep -i coral/neural/tpu/edge
  i2c_ls : String := ""            -- ls /dev/i2c-*
  i2cdetect_out : String → String := fun _ => ""  -- i2cdetect -y <bus>
  pinout : String := ""            -- pinout | head -20
  hwmon_ls : String := ""          -- ls /sys/class/hwmon/hwmon*/power1_input
  cat_power : String → String := fun _ => ""      -- cat <power1_input file>
  dmesg_critical : String := ""    -- dmesg | grep error/fail/... | tail -10
  dmesg_network : String := ""     -- dmesg | grep network/wifi/... | tail -10
  dmesg_power_events : String := "" -- dmesg | grep power/thermal/... | tail -10
  df_root : String := ""           -- df -h / | awk NR==2{...}

/-- The `get_system_status` dict: `uptime` and `temperature` are always
set, `load` and `memory_usage` only conditionally. -/
structure SystemStatus where
  uptime : String
  load : Option String
  memory_usage : Option String
  temperature : String

/-- Lines 95-102, the memory-usage block of `get_system_status`: on
nonempty `free` output with a second line, `mem_line = lines[1].split()`,
`total = int(mem_line[1])`, `used = int(mem_line[2])`, then
`f"{used*100/total:.1f}% of {total/1024/1024:.1f}GB"`.  Index, int and
division failures are the Python exceptions this block can raise. -/
def parseMemUsage (s : String) : Except String (Option String) :=
  if s = "" then .ok none
  else
    let lines := (splitChar '\n' (chars s)).map ofChars
    if lines.length > 1 then
      let memLine := pySplitWs (lines.getD 1 "")
      match memLine[1]? with
      | none => .error "IndexError"
      | some s1 =>
        match pyInt s1 with
        | none => .error "ValueError"
        | some total =>
          match memLine[2]? with
          | none => .error "IndexError"
          | some s2 =>
            match pyInt s2 with
            | none => .error "ValueError"
            | some used =>
              if total = 0 then .error "ZeroDivisionError"
              else .ok (some (fmtDiv 1 (used * 100) total ++ "% of "
                ++ fmtDiv 1 total 1048576 ++ "GB"))
    else .ok none

/-- The `free` outputs on which the memory-usage block does not raise. -/
def freeOk (s : String) : Bool :=
  match parseMemUsage s with
  | .ok _ => true
  | .error _ => false

/-- `get_system_status` (lines 82-117).  The temperature fallback chain:
`vcgencmd` output (text after the first `=`), else the thermal-zone file in
millidegrees rendered as `f"{temp_c:.1f}'C"`, else "N/A". -/
def get_system_status (c : CmdOutputs) : Except String SystemStatus :=
  let load :=
    if strContains c.uptime "load average:" then
      (segmentAfter c.uptime "load average:").map pyStrip
    else none
  let temperature :=
    if c.measure_temp ≠ "" then
      (if strContains c.measure_temp "=" then
        ((splitChar '=' (chars c.measure_temp)).map ofChars).getD 1 ""
      else "N/A")
    else if c.thermal_zone ≠ "" && pyIsDigitStr c.thermal_zone then
      fmtDiv 1 (natOfDigits (chars c.thermal_zone)) 1000 ++ "'C"
    else "N/A"
  match parseMemUsage c.free with
  | .error e => .error e
  | .ok memory_usage =>
    .ok { uptime := c.uptime_p, load := load, memory_usage := memory_usage,
          temperature := temperature }

/-- The `get_power_status` dict (lines 119-142). -/
structure PowerStatus where
  throttled : String
  has_issues : Bool
  voltages : List (String × String)
  recent_events : List String

def get_power_status (c : CmdOutputs) : PowerStatus :=
  let throttled := if c.get_throttled ≠ "" then c.get_throttled else "N/A"
  let has_issues := if c.get_throttled ≠ "" then c.get_throttled ≠ "throttled=0x0" else false
  let voltages := ["core", "sdram_c", "sdram_i", "sdram_p"].map (fun rail =>
    let volt := c.volts rail
    (rail, if volt ≠ "" && strContains volt "=" then
        ((splitChar '=' (chars volt)).map ofChars).getD 1 ""
      else "N/A"))
  let recent_events :=
    if c.dmesg_power ≠ "" then (splitChar '\n' (chars c.dmesg_power)).map ofChars else []
  { throttled := throttled, has_issues := has_issues,
    voltages := voltages, recent_events := recent_events }

structure EthStatus where
  status : String
  ip : Option String

structure WifiStatus where
  status : String
  ssid : Option String
  signal : Option String

/-- The `get_network_status` dict (lines 144-192). -/
structure NetworkStatus where
  ethernet : Option EthStatus
  wifi : Option WifiStatus
  gateway_reachable : Bool
  internet_reachable : Bool
  dns_working : Bool
  interfaces : String
  routes : String
  stats : String

/-- `re.search(r'ESSID:"([^"]*)"', s)`: text between `ESSID:"` and the
next quote, needing the closing quote. -/
def extractSsid (s : String) : Option String :=
  (findAfter (chars s) (chars "ESSID:\"")).bind (fun rest =>
    let capt := rest.takeWhile (fun c => c ≠ '"')
    if rest.drop capt.length = [] then none else some (ofChars capt))

/-- `re.search(r'Signal level=([^\s]*)', s)`: the non-whitespace run after
`Signal level=` (possibly empty). -/
def extractSignal (s : String) : Option String :=
  (findAfter (chars s) (chars "Signal level=")).map (fun rest =>
    ofChars (rest.takeWhile (fun c => !c.isWhitespace)))

def get_network_status (hw : HardwareInfo) (c : CmdOutputs) : NetworkStatus :=
  let ethernet :=
    if hw.has_ethernet then
      let ethStat := if strContains c.eth_link "state UP" then "Connected" else "Disconnected"
      some { status := ethStat,
             ip := if ethStat = "Connected" then
                     some (if c.eth_ip ≠ "" then c.eth_ip else "No IP")
                   else none }
    else none
  let wifi :=
    if hw.has_wifi then
      let connected := strContains c.wifi_info "ESSID" && !strContains c.wifi_info "Not-Associated"
      some { status := if connected then "Connected" else "Disconnected",
             ssid := if connected then extractSsid c.wifi_info else none,
             signal := if connected then extractSignal c.wifi_info else none }
    else none
  { ethernet := ethernet, wifi := wifi,
    gateway_reachable := c.gateway ≠ "" && c.ping_gateway = "0",
    internet_reachable := c.ping_internet = "0",
    dns_working := c.dns_test = "0",
    interfaces := c.ip_addr, routes := c.ip_route, stats := c.net_dev }

/-- The `get_storage_info` dict (lines 194-203). -/
structure StorageInfo where
  disk_usage : String
  block_devices : String
  usb_devices : String
  mounts : String

def get_storage_info (c : CmdOutputs) : StorageInfo :=
  { disk_usage := c.df_h, block_devices := c.lsblk,
    usb_devices := c.lsusb, mounts := c.mounts }

/-- The `get_ai_hat_info` dict (populated branch, lines 210-247). -/
structure AiInfo where
  usb_neural : String
  i2c_devices : String
  gpio_info : String
  power_draw : String

/-- `get_ai_hat_info` returns the empty dict when the profile has no AI
hat (line 207-208), and a fully populated dict otherwise. -/
def get_ai_hat_info (hw : HardwareInfo) (c : CmdOutputs) : Option AiInfo :=
  if !hw.has_ai_hat then none
  else
    let usb_neural := if c.usb_neural ≠ "" then c.usb_neural else "No USB neural devices found"
    let i2c_buses := pySplitWs c.i2c_ls
    let i2c_info := (i2c_buses.filter (fun bus => bus ≠ "")).filterMap (fun bus =>
      let bus_num := ((splitChar '-' (chars bus)).map ofChars).getLastD ""
      let bus_devices := c.i2cdetect_out bus_num
      if bus_devices ≠ "" then some ("Bus " ++ bus_num ++ ":\n" ++ bus_devices) else none)
    let i2c_devices := if i2c_info ≠ [] then joinLines i2c_info else "No I2C devices found"
    let gpio_info := if c.pinout ≠ "" then c.pinout else "GPIO info not available"
    let power_files := pySplitWs c.hwmon_ls
    let firstPower := (power_files.filter (fun f =>
      f ≠ "" && c.cat_power f ≠ "" && pyIsDigitStr (c.cat_power f))).head?
    let power_draw :=
      match firstPower with
      | some f => fmtDiv 2 (natOfDigits (chars (c.cat_power f))) 1000000 ++ "W"
      | none => "Power monitoring not available"
    some { usb_neural := usb_neural, i2c_devices := i2c_devices,
           gpio_info := gpio_info, power_draw := power_draw }

/-- The `get_system_logs` dict (lines 249-265). -/
structure LogsInfo where
  critical_events : String
  network_events : String
  power_events : String

def get_system_logs (c : CmdOutputs) : LogsInfo :=
  { critical_events := if c.dmesg_critical ≠ "" then c.dmesg_critical else "No critical events found",
    network_events := if c.dmesg_network ≠ "" then c.dmesg_network else "No network events found",
    power_events := if c.dmesg_power_events ≠ "" then c.dmesg_power_events else "No power/thermal events found" }

/-! ### HTML report (`generate_html_report`, lines 267-679)

The document is the concatenation, in source order, of the template chunks
below.  Static markup (CSS, JS, decorative glyphs) is abbreviated; every
interpolated value and every conditional fragment of the source template is
kept. -/

/-- Template text between the leading `<!DOCTYPE html>` and the first
hardware card (head, styles, scripts, header, opening of the overview
grid). -/
def htmlHeadStr : String :=
  "\n<html lang=\"en\">\n<head>\n<meta charset=\"UTF-8\">\n<meta name=\"viewport\" content=\"width=device-width, initial-scale=1.0\">\n<title>Raspberry Pi Diagnostics Report</title>\n<style>[static css omitted]</style>\n<script>[static js omitted]</script>\n</head>\n<body>\n<button class=\"refresh-btn\" onclick=\"refreshPage()\">Refresh</button>\n<div class=\"container\">\n<div class=\"header\">\n<h1>Raspberry Pi Diagnostics</h1>\n<div class=\"subtitle\">Comprehensive Hardware & Network Analysis</div>\n</div>\n<div class=\"content\">\n<div class=\"hardware-overview\">"

/-- The always-present system card (model, memory, revision). -/
def systemCardHtml (hw : HardwareInfo) : String :=
  "\n<div class=\"hw-card success\">\n<h3>System</h3>\n<div style=\"font-size: 1.1em; margin: 10px 0;\">" ++ hw.model
  ++ "</div>\n<div>Memory: " ++ hw.memory
  ++ "</div>\n<div style=\"font-size: 0.9em; opacity: 0.8;\">Rev: " ++ hw.revision ++ "</div>\n</div>"

/-- Lines 427-437: Ethernet card, only when the profile has Ethernet. -/
def ethCardHtml (hw : HardwareInfo) (net : NetworkStatus) : String :=
  if hw.has_ethernet then
    let eth_status := match net.ethernet with | some e => e.status | none => "Unknown"
    let eth_class := if eth_status = "Connected" then "success" else "warning"
    let eth_ip := match net.ethernet with | some e => e.ip.getD "" | none => ""
    "\n<div class=\"hw-card " ++ eth_class ++ "\">\n<h3>Ethernet</h3>\n<div style=\"font-size: 1.1em; margin: 10px 0;\">" ++ eth_status ++ "</div>\n"
    ++ (if eth_ip ≠ "" && eth_ip ≠ "No IP" then "<div>IP: " ++ eth_ip ++ "</div>" else "")
    ++ "\n</div>"
  else ""

/-- Lines 439-451: WiFi card, only when the profile has WiFi. -/
def wifiCardHtml (hw : HardwareInfo) (net : NetworkStatus) : String :=
  if hw.has_wifi then
    let wifi_status := match net.wifi with | some w => w.status | none => "Unknown"
    let wifi_class := if wifi_status = "Connected" then "success" else "warning"
    let wifi_ssid := match net.wifi with | some w => w.ssid.getD "" | none => ""
    let wifi_signal := match net.wifi with | some w => w.signal.getD "" | none => ""
    "\n<div class=\"hw-card " ++ wifi_class ++ "\">\n<h3>WiFi</h3>\n<div style=\"font-size: 1.1em; margin: 10px 0;\">" ++ wifi_status ++ "</div>\n"
    ++ (if wifi_ssid ≠ "" then "<div>SSID: " ++ wifi_ssid ++ "</div>" else "")
    ++ "\n"
    ++ (if wifi_signal ≠ "" then "<div>Signal: " ++ wifi_signal ++ "</div>" else "")
    ++ "\n</div>"
  else ""

/-- Lines 453-460: static AI-HAT card, only when the profile flags it. -/
def aiHatCardHtml (hw : HardwareInfo) : String :=
  if hw.has_ai_hat then
    "\n<div class=\"hw-card available\">\n<h3>AI HAT</h3>\n<div style=\"font-size: 1.1em; margin: 10px 0;\">Detected</div>\n<div style=\"font-size: 0.9em;\">Neural Processing Unit</div>\n</div>"
  else ""

/-- Lines 462-481: cooling card with the threshold-classified temperature,
only when the profile flags active cooling. -/
def coolingCardHtml (hw : HardwareInfo) (sys : SystemStatus) : String :=
  if hw.has_cooling then
    let temp := sys.temperature
    let temp_class := pyCoolingCardClass temp
    "\n<div class=\"hw-card " ++ temp_class ++ "\">\n<h3>Cooling</h3>\n<div style=\"font-size: 1.1em; margin: 10px 0;\">Active</div>\n<div>Temp: " ++ temp ++ "</div>\n</div>"
  else ""

/-- Lines 483-492: storage card (the `df -h /` one-liner run during
generation) and the close of the overview grid. -/
def storageCardHtml (c : CmdOutputs) : String :=
  let storage_usage := if c.df_root ≠ "" then c.df_root else "Storage info unavailable"
  "\n<div class=\"hw-card available\">\n<h3>Storage</h3>\n<div style=\"font-size: 0.9em; margin: 10px 0;\">" ++ storage_usage ++ "</div>\n</div>\n</div>"

/-- Lines 494-518: the system-status metric grid. -/
def systemSectionHtml (sys : SystemStatus) : String :=
  "\n<div class=\"section\">\n<div class=\"section-header\">System Status</div>\n<div class=\"section-content\">\n<div class=\"metric-grid\">\n<div class=\"metric\">\n<div class=\"label\">Uptime</div>\n<div class=\"value\">" ++ sys.uptime
  ++ "</div>\n</div>\n<div class=\"metric\">\n<div class=\"label\">Load Average</div>\n<div class=\"value\">" ++ sys.load.getD "N/A"
  ++ "</div>\n</div>\n<div class=\"metric\">\n<div class=\"label\">Memory Usage</div>\n<div class=\"value\">" ++ sys.memory_usage.getD "N/A"
  ++ "</div>\n</div>\n<div class=\"metric\">\n<div class=\"label\">Temperature</div>\n<div class=\"value\">" ++ sys.temperature
  ++ "</div>\n</div>\n</div>\n</div>\n</div>"

/-- Lines 520-544: power-supply section (verdict line, voltage grid,
throttling/event block). -/
def powerSectionHtml (power : PowerStatus) : String :=
  let power_class := if !power.has_issues then "status-good" else "status-error"
  let power_msg := if !power.has_issues then "No power issues detected" else "Power/thermal throttling detected!"
  "\n<div class=\"section\">\n<div class=\"section-header\">Power Supply Analysis</div>\n<div class=\"section-content\">\n<div class=\"" ++ power_class ++ "\">" ++ power_msg ++ "</div>\n<div class=\"metric-grid\">"
  ++ joinSep "" (power.voltages.map (fun rv =>
      "\n<div class=\"metric\">\n<div class=\"label\">" ++ rv.1 ++ " voltage</div>\n<div class=\"value\">" ++ rv.2 ++ "</div>\n</div>"))
  ++ "\n</div>\n<pre>Throttling Status: " ++ power.throttled ++ "\n"
  ++ joinLines power.recent_events
  ++ "</pre>\n</div>\n</div>"

/-- Lines 546-564: AI-HAT diagnostics section, only when the profile flags
an AI hat; the dict lookups carry the source's `.get` defaults. -/
def aiSectionHtml (hw : HardwareInfo) (aiOpt : Option AiInfo) : String :=
  if hw.has_ai_hat then
    let usb := match aiOpt with | some ai => ai.usb_neural | none => "No USB neural devices found"
    let i2c := match aiOpt with | some ai => ai.i2c_devices | none => "No I2C devices found"
    let gpio := match aiOpt with | some ai => ai.gpio_info | none => "GPIO info not available"
    let pw := match aiOpt with | some ai => ai.power_draw | none => "Power monitoring not available"
    "\n<div class=\"section\">\n<div class=\"section-header\">AI HAT Diagnostics</div>\n<div class=\"section-content\">\n<pre>=== AI/Neural Processing Devices ===\n" ++ usb
    ++ "\n\n=== I2C Devices ===\n" ++ i2c
    ++ "\n\n=== GPIO Usage ===\n" ++ gpio
    ++ "\n\n=== Power Consumption Estimate ===\n" ++ pw
    ++ "</pre>\n</div>\n</div>"
  else ""

/-- Lines 566-601: network diagnostics section. -/
def networkSectionHtml (net : NetworkStatus) : String :=
  let gateway_status := if net.gateway_reachable then "Reachable" else "Unreachable"
  let gateway_class := if net.gateway_reachable then "success" else "error"
  let internet_status := if net.internet_reachable then "Connected" else "No Connection"
  let internet_class := if net.internet_reachable then "success" else "error"
  let dns_status := if net.dns_working then "Working" else "Failed"
  let dns_class := if net.dns_working then "success" else "error"
  "\n<div class=\"section\">\n<div class=\"section-header\">Network Diagnostics</div>\n<div class=\"section-content\">\n<div class=\"metric-grid\">\n<div class=\"metric " ++ gateway_class
  ++ "\">\n<div class=\"label\">Gateway</div>\n<div class=\"value status-" ++ (if net.gateway_reachable then "good" else "error") ++ "\">" ++ gateway_status
  ++ "</div>\n</div>\n<div class=\"metric " ++ internet_class
  ++ "\">\n<div class=\"label\">Internet</div>\n<div class=\"value status-" ++ (if net.internet_reachable then "good" else "error") ++ "\">" ++ internet_status
  ++ "</div>\n</div>\n<div class=\"metric " ++ dns_class
  ++ "\">\n<div class=\"label\">DNS</div>\n<div class=\"value status-" ++ (if net.dns_working then "good" else "error") ++ "\">" ++ dns_status
  ++ "</div>\n</div>\n</div>\n<pre>=== Network Interfaces ===\n" ++ net.interfaces
  ++ "\n\n=== Routing Table ===\n" ++ net.routes
  ++ "\n\n=== Network Statistics ===\n" ++ net.stats
  ++ "</pre>\n</div>\n</div>"

/-- Lines 603-620: storage and USB section. -/
def storageSectionHtml (st : StorageInfo) : String :=
  "\n<div class=\"section\">\n<div class=\"section-header\">Storage & USB</div>\n<div class=\"section-content\">\n<pre>=== Disk Usage ===\n" ++ st.disk_usage
  ++ "\n\n=== External Storage ===\n" ++ st.block_devices
  ++ "\n\n=== USB Devices ===\n" ++ st.usb_devices
  ++ "\n\n=== Mount Points ===\n" ++ st.mounts
  ++ "</pre>\n</div>\n</div>"

/-- Lines 622-636: collapsed-by-default system-logs section. -/
def logsSectionHtml (logs : LogsInfo) : String :=
  "\n<div class=\"section\">\n<div class=\"section-header collapsible\" onclick=\"toggleSection('logs')\">System Logs (Click to toggle)</div>\n<div class=\"section-content\" id=\"logs\" style=\"display: none;\">\n<pre>=== Recent Critical Events ===\n" ++ logs.critical_events
  ++ "\n\n=== Network Events ===\n" ++ logs.network_events
  ++ "\n\n=== Power/Thermal Events ===\n" ++ logs.power_events
  ++ "</pre>\n</div>\n</div>"

/-- Lines 638-666: the rule-based recommendations list over profile
flags. -/
def recsSectionHtml (hw : HardwareInfo) : String :=
  "\n<div class=\"section\">\n<div class=\"section-header\">Recommendations</div>\n<div class=\"section-content\">\n<div style=\"background: #e8f4f8; padding: 15px; border-radius: 8px; border-left: 4px solid #3498db;\">\n<h4>Hardware-Specific Recommendations:</h4>\n<ul>"
  ++ (if strContains hw.model "Pi 5" then
        "<li><strong>Pi 5 Power:</strong> Ensure you have the official 27W USB-C power supply</li>"
        ++ (if hw.has_ai_hat then
              "<li><strong>AI HAT Power:</strong> AI HAT increases power requirements - monitor for under-voltage warnings</li>"
            else "")
      else "")
  ++ (if hw.has_ai_hat then
        "<li><strong>AI HAT Cooling:</strong> Neural processing generates heat - ensure adequate cooling</li><li><strong>AI HAT Performance:</strong> Monitor I2C communication and GPIO usage</li>"
      else "")
  ++ (if hw.has_wifi && hw.has_ethernet then
        "<li><strong>Dual Network:</strong> Consider disabling WiFi if using Ethernet to avoid routing conflicts</li>"
      else "")
  ++ (if hw.has_cooling then
        "<li><strong>Active Cooling:</strong> Monitor fan operation and clean dust regularly</li>"
      else "")
  ++ "\n</ul>\n</div>\n</div>\n</div>"

/-- Lines 668-673, first half of the footer, up to the interpolated
generation timestamp. -/
def footerPreStr : String :=
  "\n<div class=\"timestamp\">\nReport generated: "

/-- The rest of the footer and the document close. -/
def reportTailStr : String :=
  "<br>\nAuto-refresh available via refresh button\n</div>\n</div>\n</div>\n</body>\n"

/-- Everything of the report between the leading `<!DOCTYPE html>` and the
interpolated timestamp, for a successfully collected status snapshot. -/
def reportCoreStr (hw : HardwareInfo) (c : CmdOutputs) (sys : SystemStatus) : String :=
  let power := get_power_status c
  let net := get_network_status hw c
  let storage := get_storage_info c
  let aiOpt := get_ai_hat_info hw c
  let logs := get_system_logs c
  htmlHeadStr ++ systemCardHtml hw ++ ethCardHtml hw net ++ wifiCardHtml hw net
    ++ aiHatCardHtml hw ++ coolingCardHtml hw sys ++ storageCardHtml c
    ++ systemSectionHtml sys ++ powerSectionHtml power ++ aiSectionHtml hw aiOpt
    ++ networkSectionHtml net ++ storageSectionHtml storage ++ logsSectionHtml logs
    ++ recsSectionHtml hw ++ footerPreStr

/-- `generate_html_report`: collect the snapshot (the only fallible getter
is `get_system_status`), then render the document with the generation
timestamp `now` interpolated into the footer (line 671, the single use of
the clock in the template). -/
def generate_html_report (hw : HardwareInfo) (c : CmdOutputs) (now : String) :
    Except String String :=
  match get_system_status c with
  | .error e => .error e
  | .ok sys =>
    .ok ("<!DOCTYPE html>" ++ reportCoreStr hw c sys ++ now ++ (reportTailStr ++ "</html>"))

/-! ### JSON endpoint and HTTP handler (`DiagnosticsHTTPHandler.do_GET`,
lines 682-727) -/

/-- JSON string escaping as `json.dumps` performs it for the characters
that occur in command text (backslash, quote, and the common control
characters; `\uXXXX` escaping of other control/non-ASCII characters is not
modelled). -/
def jsonEsc : List Char → List Char
  | [] => []
  | c :: rest =>
    if c = '\\' then '\\' :: '\\' :: jsonEsc rest
    else if c = '"' then '\\' :: '"' :: jsonEsc rest
    else if c = '\n' then '\\' :: 'n' :: jsonEsc rest
    else if c = '\t' then '\\' :: 't' :: jsonEsc rest
    else if c = '\r' then '\\' :: 'r' :: jsonEsc rest
    else c :: jsonEsc rest

def jstr (s : String) : String := "\"" ++ ofChars (jsonEsc (chars s)) ++ "\""

def jbool (b : Bool) : String := if b then "true" else "false"

def jsonInd (n : Nat) : String := ofChars (List.replicate (2 * n) ' ')

/-- `json.dumps` object layout with `indent=2`; `lvl` is the nesting depth
of the members. -/
def jsonObj (lvl : Nat) (kvs : List (String × String)) : String :=
  match kvs with
  | [] => "\x7b\x7d"
  | _ => "\x7b\n"
    ++ joinSep ",\n" (kvs.map (fun kv => jsonInd lvl ++ jstr kv.1 ++ ": " ++ kv.2))
    ++ "\n" ++ jsonInd (lvl - 1) ++ "\x7d"

def jsonArr (lvl : Nat) (xs : List String) : String :=
  match xs with
  | [] => "[]"
  | _ => "[\n" ++ joinSep ",\n" (xs.map (fun x => jsonInd lvl ++ x))
    ++ "\n" ++ jsonInd (lvl - 1) ++ "]"

/-- The `/api/status` body (lines 712-720): `json.dumps(status_data,
indent=2)` of the five-key dict, mirroring each getter dict's insertion
order, with the optional keys present exactly when the getters set them. -/
def api_status_json (hw : HardwareInfo) (c : CmdOutputs) (now : String) :
    Except String String :=
  match get_system_status c with
  | .error e => .error e
  | .ok sys =>
    let power := get_power_status c
    let net := get_network_status hw c
    let hwJ := jsonObj 2 [("model", jstr hw.model), ("revision", jstr hw.revision),
      ("memory", jstr hw.memory), ("has_wifi", jbool hw.has_wifi),
      ("has_ethernet", jbool hw.has_ethernet), ("has_ai_hat", jbool hw.has_ai_hat),
      ("has_cooling", jbool hw.has_cooling)]
    let sysJ := jsonObj 2 ([("uptime", jstr sys.uptime)]
      ++ (match sys.load with | some l => [("load", jstr l)] | none => [])
      ++ (match sys.memory_usage with | some m => [("memory_usage", jstr m)] | none => [])
      ++ [("temperature", jstr sys.temperature)])
    let netJ := jsonObj 2 (
      (match net.ethernet with
       | some e => [("ethernet", jsonObj 3 ([("status", jstr e.status)]
           ++ (match e.ip with | some ip => [("ip", jstr ip)] | none => [])))]
       | none => [])
      ++ (match net.wifi with
          | some w => [("wifi", jsonObj 3 ([("status", jstr w.status)]
              ++ (match w.ssid with | some x => [("ssid", jstr x)] | none => [])
              ++ (match w.signal with | some x => [("signal", jstr x)] | none => [])))]
          | none => [])
      ++ [("gateway_reachable", jbool net.gateway_reachable),
          ("internet_reachable", jbool net.internet_reachable),
          ("dns_working", jbool net.dns_working),
          ("interfaces", jstr net.interfaces),
          ("routes", jstr net.routes),
          ("stats", jstr net.stats)])
    let powJ := jsonObj 2 [("throttled", jstr power.throttled),
      ("has_issues", jbool power.has_issues),
      ("voltages", jsonObj 3 (power.voltages.map (fun rv => (rv.1, jstr rv.2)))),
      ("recent_events", jsonArr 3 (power.recent_events.map jstr))]
    .ok (jsonObj 1 [("hardware", hwJ), ("system", sysJ), ("network", netJ),
      ("power", powJ), ("timestamp", jstr now)])

/-- An HTTP response as the handler assembles it: status code, the headers
sent with `send_header`, and the body written to `wfile`. -/
structure HttpResponse where
  status : Nat
  headers : List (String × String)
  body : String
  deriving DecidableEq

/-- `do_GET` (lines 687-723): exact-match routing on `self.path`.  A `/` or
`/index.html` request sends 200 with the cache-disabling headers and a
freshly generated report; `/refresh` sends a 302 redirect to `/`;
`/api/status` sends the JSON snapshot; anything else `send_error(404)`.
The `Except` propagates the (only) possible Python exception of the
generation path. -/
def do_GET (hw : HardwareInfo) (c : CmdOutputs) (now : String) (path : String) :
    Except String HttpResponse :=
  if path = "/" ∨ path = "/index.html" then
    match generate_html_report hw c now with
    | .error e => .error e
    | .ok body =>
      .ok { status := 200,
            headers := [("Content-type", "text/html"),
              ("Cache-Control", "no-cache, no-store, must-revalidate"),
              ("Pragma", "no-cache"), ("Expires", "0")],
            body := body }
  else if path = "/refresh" then
    .ok { status := 302, headers := [("Location", "/")], body := "" }
  else if path = "/api/status" then
    match api_status_json hw c now with
    | .error e => .error e
    | .ok body =>
      .ok { status := 200, headers := [("Content-type", "application/json")], body := body }
  else
    .ok { status := 404, headers := [], body := "File not found" }

/-- The process state of the server: the startup timestamp and the
hardware profile computed once in `RPiDiagnostics.__init__`
(lines 21-23).  `do_GET` reads `self.diagnostics.hardware_info` and never
assigns any attribute. -/
structure ServerState where
  timestamp : String
  hardware_info : HardwareInfo

/-- One request: the response paired with the server state after the
request (no route of `do_GET` writes to the shared instance). -/
def handle_request (st : ServerState) (path : String) (c : CmdOutputs) (now : String) :
    Except String HttpResponse × ServerState :=
  (do_GET st.hardware_info c now path, st)

/-- A whole request history: each element is a request path with the
command outputs and clock reading observed while serving it. -/
def process_requests (st : ServerState) : List (String × CmdOutputs × String) → ServerState
  | [] => st
  | r :: rest => process_requests (handle_request st r.1 r.2.1 r.2.2).2 rest

/-! ### Concrete inputs for counterexamples and witnesses -/

/-- A sample startup hardware profile. -/
def hw0 : HardwareInfo :=
  { model := "Raspberry Pi 5 Model B Rev 1.0", revision := "d04170", memory := "8 GB",
    has_wifi := true, has_ethernet := true, has_ai_hat := false, has_cooling := false }

/-- The all-commands-failed environment: `run_command` returns `""` for
everything. -/
def cmd0 : CmdOutputs := {}

/-- An environment where `free` emitted malformed output: a header line and
a second line with a single field. -/
def cexFreeCmd : CmdOutputs := { free := "x\ny" }

/-- A host where `lsusb` lists no accelerator keyword, an I2C device node
exists, and the `i2cdetect` scan pipeline produced no output (for instance
because `i2cdetect` is not installed). -/
def cexAiProbe : AiProbe :=
  { lsusbOut := "Bus 001 Device 001: ID 1d6b:0002 Linux Foundation 2.0 root hub",
    i2cLsOut := "/dev/i2c-1",
    i2cScanOut := "" }

/-- A host whose only cooling evidence is the CONTENTS of the thermal
cooling-device type file ("pwm-fan"): no entry under `/sys/class/thermal`
has "fan" in its NAME, the fancontrol service is inactive and no GPIO fan
process runs. -/
def cexCoolProbe : CoolProbe :=
  { thermalNames := ["cooling_device0", "thermal_zone0"],
    coolingTypeContents := ["pwm-fan"],
    fancontrolActive := false,
    pgrepOut := "" }

/-! ### Helper lemmas -/

theorem str_append_assoc (a b c : String) : a ++ b ++ c = a ++ (b ++ c) := by
  cases a with | mk l1 =>
  cases b with | mk l2 =>
  cases c with | mk l3 =>
  exact congrArg String.mk (List.append_assoc l1 l2 l3)

theorem data_append (a b : String) : (a ++ b).data = a.data ++ b.data := by
  cases a; cases b; rfl

theorem string_eq_empty_of_data (s : String) (h : s.data = []) : s = "" := by
  cases s with | mk l => cases h; rfl

theorem append_ne_empty_left (a b : String) (ha : a ≠ "") : a ++ b ≠ "" := by
  intro h
  have hd := congrArg String.data h
  rw [data_append] at hd
  rcases List.append_eq_nil.mp hd with ⟨h1, _⟩
  exact ha (string_eq_empty_of_data a h1)

theorem strContains_ne_empty (s pat : String) (hp : chars pat ≠ []) :
    strContains s pat = true → s ≠ "" := by
  intro h hs
  subst hs
  unfold strContains at h
  have hc : chars "" = [] := rfl
  rw [hc] at h
  unfold findAfter at h
  rw [if_neg hp] at h
  cases h

theorem joinLines_cons_ne (x : String) (r : List String) (hx : x ≠ "") :
    joinLines (x :: r) ≠ "" := by
  cases r with
  | nil => simpa [joinLines] using hx
  | cons y t =>
    show x ++ "\n" ++ joinLines (y :: t) ≠ ""
    exact append_ne_empty_left _ _ (append_ne_empty_left _ _ hx)

theorem join_filter_fan (l : List String) :
    decide (joinLines (l.filter (fun n => strContains n "fan")) ≠ "")
      = l.any (fun n => strContains n "fan") := by
  induction l with
  | nil => decide
  | cons x t ih =>
    by_cases hx : strContains x "fan" = true
    · rw [List.filter_cons_of_pos (by simpa using hx), List.any_cons, hx, Bool.true_or]
      simp only [decide_eq_true_eq]
      exact joinLines_cons_ne x _ (strContains_ne_empty x "fan" (by decide) hx)
    · have hx' : strContains x "fan" = false := by
        cases hb : strContains x "fan"
        · rfl
        · exact absurd hb hx
      rw [List.filter_cons_of_neg (by simp [hx']), List.any_cons, hx', Bool.false_or, ih]

theorem sysctl_active_decide (p : CoolProbe) :
    decide (pySystemctlOut p = "active") = p.fancontrolActive := by
  cases hp : p.fancontrolActive <;> simp [pySystemctlOut, hp]

theorem get_system_status_ok_of_freeOk (c : CmdOutputs) (h : freeOk c.free = true) :
    ∃ sys, get_system_status c = .ok sys := by
  unfold freeOk at h
  unfold get_system_status
  cases hm : parseMemUsage c.free with
  | error e => rw [hm] at h; simp at h
  | ok v => exact ⟨_, rfl⟩

/-! ### Claim theorems -/

/-- C1: the pure-Python renderer's value-level temperature classification
realises exactly the claimed partition (at most 70 nominal/"success", over
70 up to 80 "warning", over 80 "error"), and the shell renderer's
system-status section classifies 85.0 as "error"; but the shell renderer's
cooling card classifies 85.0 as "warning": its `elif ... -gt 80` branch is
shadowed by the `-gt 70` branch and is unreachable, so no temperature ever
classifies as "error" there.  (The first conjunct also gives monotonicity
of the Python classification.) -/
theorem c1_temperature_classification :
    (∀ t : ℚ, pyClassifyVal t =
      if t ≤ 70 then "success" else if t ≤ 80 then "warning" else "error")
    ∧ pyCoolingCardClass "85.0'C" = "error"
    ∧ shStatusTempClass "85.0" = "error"
    ∧ shCoolingCardClass "85.0" = "warning" := by
  refine ⟨fun t => ?_, by decide, by decide, by decide⟩
  have hz : pyClassifyVal t =
      if t > 80 then "error" else if t > 70 then "warning" else "success" := rfl
  rw [hz]
  split_ifs <;> first | rfl | (exfalso; linarith)

/-- C2 counterexample: with `free` emitting the malformed two-line output
"x\ny" (second line a single field), the memory-usage parser raises an
IndexError that propagates out of `generate_html_report`, so report
generation neither returns a complete document nor falls back to "N/A". -/
theorem c2_report_raises_cex :
    generate_html_report hw0 cexFreeCmd "2025-01-01 00:00:00" = .error "IndexError" := by
  decide

/-- C2 (amended): whenever the `free` output parses (it is empty, has a
single line, or its second line has integer 2nd and 3rd fields with a
nonzero total), `generate_html_report` raises nothing and returns a
complete document, starting with `<!DOCTYPE html>` and ending with
`</html>`; the other field parsers always fall back to their defaults. -/
theorem c2_report_complete_when_free_parses (hw : HardwareInfo) (c : CmdOutputs)
    (now : String) (h : freeOk c.free = true) :
    ∃ mid, generate_html_report hw c now = .ok ("<!DOCTYPE html>" ++ mid ++ "</html>") := by
  obtain ⟨sys, hs⟩ := get_system_status_ok_of_freeOk c h
  have hgen : generate_html_report hw c now =
      .ok ("<!DOCTYPE html>" ++ reportCoreStr hw c sys ++ now
        ++ (reportTailStr ++ "</html>")) := by
    unfold generate_html_report
    rw [hs]
  refine ⟨reportCoreStr hw c sys ++ (now ++ reportTailStr), ?_⟩
  rw [hgen]
  exact congrArg Except.ok (by simp only [str_append_assoc])

/-- C2 witness: the all-commands-failed environment satisfies the
hypothesis and yields a complete document. -/
theorem c2_report_complete_witness :
    freeOk cmd0.free = true ∧
    ∃ mid, generate_html_report hw0 cmd0 "2025-01-01 00:00:00"
      = .ok ("<!DOCTYPE html>" ++ mid ++ "</html>") :=
  ⟨by decide, c2_report_complete_when_free_parses hw0 cmd0 "2025-01-01 00:00:00" (by decide)⟩

/-- C3 counterexample: with the gauge previously at 1, an iteration whose
detection subprocesses raise does NOT retain the value — `detect_ai_hat`
catches the exception and returns `False`, and `collect_metrics` overwrites
the gauge with 0. -/
theorem c3_gauge_overwritten_cex :
    (collect_metrics ⟨none, none, some 1⟩ none (.error ()) (.error ())).ai_hat_detected
        = some 0
    ∧ some (0 : ℚ) ≠ some (1 : ℚ) := by
  exact ⟨rfl, by decide⟩

/-- C3 (amended): in every iteration whose detection probe raises,
`detect_ai_hat` swallows the exception and returns `False`, and
`ai_hat_detected` is overwritten with the default 0 — it retains its
previous value only if `collect_metrics` itself raised, which its own
`except` in turn swallows. -/
theorem c3_probe_failure_resets_gauge (g : Gauges) (t : Option ℚ)
    (lsdev : Except Unit String) :
    detect_ai_hat (.error ()) lsdev = false
    ∧ (collect_metrics g t (.error ()) lsdev).ai_hat_detected = some 0 := by
  exact ⟨rfl, rfl⟩

/-- C4 counterexample: on a host with an I2C device node but no USB
keyword match and no `i2cdetect` output, the claimed disjunction (and the
pure-Python detector) flag true, while the shell detector flags false —
its second disjunct needs hex pairs in the `i2cdetect` scan output, not
node existence. -/
theorem c4_shell_misses_i2c_node_cex :
    cexAiProbe.i2cLsOut ≠ ""
    ∧ specAiHatFlag cexAiProbe = true
    ∧ detect_hardware_ai_hat cexAiProbe = true
    ∧ detect_pi_hardware_ai_hat cexAiProbe = false := by
  decide

/-- C4 (amended): each detector's flag is an order-insensitive disjunction
of exactly two predicates, but the two implementations do not share the
second one: the pure-Python flag is (keyword in `lsusb` text) OR (the
`ls /dev/i2c-*` listing is nonempty, i.e. a node exists), while the shell
flag is (keyword in `lsusb` text, with a shorter keyword list) OR (the
`i2cdetect` scan over the discovered buses prints a lowercase hex pair). -/
theorem c4_ai_hat_disjunction (p : AiProbe) :
    detect_hardware_ai_hat p = (pyUsbKeywordHit p || decide (p.i2cLsOut ≠ ""))
    ∧ detect_pi_hardware_ai_hat p
      = (shUsbKeywordHit p || hasLowerHexPair (chars p.i2cScanOut)) := by
  constructor
  · show (if pyUsbKeywordHit p then pyUsbKeywordHit p
      else if p.i2cLsOut ≠ "" then true else pyUsbKeywordHit p) = _
    cases h : pyUsbKeywordHit p
    · by_cases hi : p.i2cLsOut = "" <;> simp [hi]
    · simp
  · show (if shUsbKeywordHit p then true
      else if hasLowerHexPair (chars p.i2cScanOut) then true else false) = _
    cases h : shUsbKeywordHit p
    · cases h2 : hasLowerHexPair (chars p.i2cScanOut) <;> simp [h2]
    · simp

/-- C5 counterexample: on a host whose only cooling evidence is the
contents of the cooling-device type file, the claimed disjunction holds
but the pure-Python detector flags false — its first check matches file
NAMES under `/sys/class/thermal`, not type-file contents. -/
theorem c5_contents_fan_missed_cex :
    specCoolingFlag cexCoolProbe = true
    ∧ detect_hardware_cooling cexCoolProbe = false
    ∧ detect_pi_hardware_cooling cexCoolProbe = true := by
  decide

/-- C5 (amended): each detector's flag is the disjunction of three
conditions, but the first differs from the claim: the pure-Python detector
tests whether some entry under `/sys/class/thermal` has "fan" in its NAME
(plus service-active, plus pgrep output); the shell detector tests the
type-file CONTENTS, but only when the `cooling_device*/type` glob matches
exactly one file. -/
theorem c5_cooling_disjunction (p : CoolProbe) :
    detect_hardware_cooling p
      = (p.thermalNames.any (fun n => strContains n "fan")
        || p.fancontrolActive || decide (p.pgrepOut ≠ ""))
    ∧ detect_pi_hardware_cooling p
      = ((decide (p.coolingTypeContents.length = 1)
          && strContains (p.coolingTypeContents.headD "") "fan")
        || decide (p.pgrepOut ≠ "") || p.fancontrolActive) := by
  constructor
  · unfold detect_hardware_cooling pyFindFanOut
    rw [join_filter_fan, sysctl_active_decide]
  · unfold detect_pi_hardware_cooling
    rcases p.coolingTypeContents with _ | ⟨x, _ | ⟨y, t⟩⟩
    · simp
    · simp
    · have hlen : (x :: y :: t).length ≠ 1 := by simp
      simp [hlen]

/-- C6 counterexample: `GET /` does not return a 200 response carrying a
freshly generated report for every request — when `free` emitted malformed
output, the handler raises out of the generation path mid-response instead
(the headers having already been sent), so the handler's outcome is not the
claimed function of the request path alone. -/
theorem c6_do_get_raises_cex :
    do_GET hw0 cexFreeCmd "2025-01-01 00:00:00" "/" = .error "IndexError" := by
  decide

/-- C6 (amended): `do_GET` routes exactly as claimed — `/` and
`/index.html` get 200 with the cache-disabling headers and a freshly
generated report, `/refresh` gets a 302 redirect with Location `/`,
`/api/status` gets 200 with the JSON-encoded
hardware/system/network/power snapshot, and every other path gets 404 —
provided the `free` output parses, the condition (see C2) under which the
snapshot collection underlying `/` and `/api/status` raises nothing. -/
theorem c6_do_get_routing (path : String) (hw : HardwareInfo) (c : CmdOutputs)
    (now : String) (h : freeOk c.free = true) :
    ((path = "/" ∨ path = "/index.html") →
      ∃ body, generate_html_report hw c now = Except.ok body ∧
        do_GET hw c now path = .ok
          { status := 200,
            headers := [("Content-type", "text/html"),
              ("Cache-Control", "no-cache, no-store, must-revalidate"),
              ("Pragma", "no-cache"), ("Expires", "0")],
            body := body })
    ∧ (path = "/refresh" →
        do_GET hw c now path = .ok { status := 302, headers := [("Location", "/")], body := "" })
    ∧ (path = "/api/status" →
        ∃ body, api_status_json hw c now = Except.ok body ∧
          do_GET hw c now path = .ok
            { status := 200, headers := [("Content-type", "application/json")], body := body })
    ∧ (path ≠ "/" → path ≠ "/index.html" → path ≠ "/refresh" → path ≠ "/api/status" →
        do_GET hw c now path = .ok { status := 404, headers := [], body := "File not found" }) := by
  obtain ⟨sys, hs⟩ := get_system_status_ok_of_freeOk c h
  have hgen : generate_html_report hw c now =
      .ok ("<!DOCTYPE html>" ++ reportCoreStr hw c sys ++ now
        ++ (reportTailStr ++ "</html>")) := by
    unfold generate_html_report
    rw [hs]
  have hapi : ∃ body, api_status_json hw c now = .ok body := by
    unfold api_status_json
    rw [hs]
    exact ⟨_, rfl⟩
  obtain ⟨apiBody, hb⟩ := hapi
  refine ⟨?_, ?_, ?_, ?_⟩
  · intro hp
    refine ⟨_, hgen, ?_⟩
    unfold do_GET
    rw [if_pos hp, hgen]
  · intro hp
    subst hp
    unfold do_GET
    rw [if_neg (by rintro (h1 | h1) <;> exact absurd h1 (by decide)), if_pos rfl]
  · intro hp
    subst hp
    refine ⟨apiBody, hb, ?_⟩
    unfold do_GET
    rw [if_neg (by rintro (h1 | h1) <;> exact absurd h1 (by decide)),
      if_neg (by decide), if_pos rfl, hb]
  · intro h1 h2 h3 h4
    unfold do_GET
    rw [if_neg (by rintro (h5 | h5) <;> [exact h1 h5; exact h2 h5]),
      if_neg h3, if_neg h4]

/-- C6 witness: concrete routing outcomes at the all-commands-failed
environment. -/
theorem c6_do_get_routing_witness :
    do_GET hw0 cmd0 "ts" "/refresh"
      = .ok { status := 302, headers := [("Location", "/")], body := "" }
    ∧ do_GET hw0 cmd0 "ts" "/nonexistent"
      = .ok { status := 404, headers := [], body := "File not found" } :=
  ⟨(c6_do_get_routing "/refresh" hw0 cmd0 "ts" (by decide)).2.1 rfl,
   (c6_do_get_routing "/nonexistent" hw0 cmd0 "ts" (by decide)).2.2.2
     (by decide) (by decide) (by decide) (by decide)⟩

/-- C7: the hardware profile is computed once at startup and no request
mutates it — after any sequence of requests (whatever their paths, command
outcomes and clock readings), the server state's `hardware_info` record
equals its startup value. -/
theorem c7_hardware_info_immutable (st : ServerState)
    (reqs : List (String × CmdOutputs × String)) :
    (process_requests st reqs).hardware_info = st.hardware_info := by
  induction reqs generalizing st with
  | nil => rfl
  | cons r rest ih => exact ih st

/-- C8: report generation is deterministic modulo the timestamp — for the
same profile and the same command outputs, two generations either fail
identically or produce documents of the form `p ++ timestamp ++ s` with the
same `p` and `s`, so they are byte-identical except for the embedded
generation timestamp. -/
theorem c8_report_deterministic_mod_timestamp (hw : HardwareInfo) (c : CmdOutputs)
    (t1 t2 : String) :
    (∃ e, generate_html_report hw c t1 = .error e
      ∧ generate_html_report hw c t2 = .error e)
    ∨ (∃ p s, generate_html_report hw c t1 = .ok (p ++ t1 ++ s)
      ∧ generate_html_report hw c t2 = .ok (p ++ t2 ++ s)) := by
  unfold generate_html_report
  cases hm : get_system_status c with
  | error e => exact .inl ⟨e, rfl, rfl⟩
  | ok sys =>
    exact .inr ⟨"<!DOCTYPE html>" ++ reportCoreStr hw c sys,
      reportTailStr ++ "</html>", rfl, rfl⟩

theorem pollEvent_beq (a b : PollEvent) : (a == b) = decide (a = b) := rfl

/-- C9: the exporter's loop never terminates except on an interrupt: an
iteration whose poll step raises an (escaped) exception logs it and
continues after a 60-second backoff instead of the 30-second interval, and
over any observation trace the loop breaks exactly when a keyboard
interrupt occurs, sleeping 30 after each normal iteration and 60 after
each exception until then. -/
theorem c9_loop_runs_until_interrupt (tr : List PollEvent) :
    run_step .exnError = some 60
    ∧ run_step .ok = some 30
    ∧ run_step .interrupt = none
    ∧ (run_loop tr).2 = tr.contains .interrupt
    ∧ (run_loop tr).1
      = (tr.takeWhile (fun e => !(e == .interrupt))).map step_sleep := by
  refine ⟨rfl, rfl, rfl, ?_, ?_⟩ <;>
  · induction tr with
    | nil => rfl
    | cons e rest ih =>
      cases e <;>
        simp_all [run_loop, run_step, step_sleep, List.contains, List.elem,
          List.takeWhile, pollEvent_beq]

/-- C10: a CPU-temperature reading of exactly 0.0 is treated like a failed
reading — `collect_metrics` updates `cpu_temperature_celsius` and
`ai_hat_temperature_celsius` only for a truthy reading, in which case both
are set to the same value, and otherwise both keep their previous values;
and the parser can really return 0.0 (`temp=0.0'C`). -/
theorem c10_zero_reading_keeps_gauges (g : Gauges) (res : Except Unit (Int × String))
    (lsmodRes lsdevRes : Except Unit String) :
    ((collect_metrics g (get_cpu_temperature res) lsmodRes lsdevRes).cpu_temp
      = (match get_cpu_temperature res with
         | none => g.cpu_temp
         | some v => if v = 0 then g.cpu_temp else some v))
    ∧ ((collect_metrics g (get_cpu_temperature res) lsmodRes lsdevRes).ai_hat_temp
      = (match get_cpu_temperature res with
         | none => g.ai_hat_temp
         | some v => if v = 0 then g.ai_hat_temp else some v))
    ∧ ((collect_metrics g (get_cpu_temperature res) lsmodRes lsdevRes).cpu_temp
        = (collect_metrics g (get_cpu_temperature res) lsmodRes lsdevRes).ai_hat_temp
      ∨ ((collect_metrics g (get_cpu_temperature res) lsmodRes lsdevRes).cpu_temp
          = g.cpu_temp
        ∧ (collect_metrics g (get_cpu_temperature res) lsmodRes lsdevRes).ai_hat_temp
          = g.ai_hat_temp))
    ∧ get_cpu_temperature (.ok (0, "temp=0.0'C")) = some 0 := by
  generalize get_cpu_temperature res = t
  cases t with
  | none => exact ⟨rfl, rfl, .inr ⟨rfl, rfl⟩, by decide⟩
  | some v =>
    by_cases hv : v = 0
    · subst hv
      refine ⟨?_, ?_, .inr ⟨?_, ?_⟩, by decide⟩ <;>
        simp [collect_metrics]
    · refine ⟨?_, ?_, .inl ?_, by decide⟩ <;>
        simp [collect_metrics, hv]
